import Mathlib

/-!
Verification development for the Squeezer media-compression program.

The definitions below are a shallow embedding of the Python sources:
  src/processors/image_processor.py   (ImageProcessor)
  src/processors/video_processor.py   (VideoProcessor)
  src/processors/compression_manager.py (CompressionManager)
  src/gui/main_window.py              (CompressionThread, quality combo box)

External effects (PIL, subprocess calls to sips / convert / ffmpeg, the
file system) are modelled by explicit environment records carrying the
success or failure of each external step; everything internal to the
program (dictionary lookups, branching, path construction, command-line
assembly, the batch loop) is translated directly.
-/

/-! ### Quality tables and extension sets -/

/-- image_processor.py line 28: quality levels for ordinary images.
Keys are the Russian tier names used throughout the program
(Высокое = High, Среднее = Medium, Низкое = Low). -/
def quality_map : List (String × Nat) :=
  [("Высокое", 80), ("Среднее", 65), ("Низкое", 50)]

/-- image_processor.py line 31: more aggressive values for HEIC files. -/
def heic_quality_map : List (String × Nat) :=
  [("Высокое", 75), ("Среднее", 60), ("Низкое", 40)]

/-- image_processor.py line 34 and compression_manager.py line 45. -/
def image_extensions : List String := [".jpg", ".jpeg", ".png", ".gif", ".heic"]

/-- video_processor.py line 65 and compression_manager.py line 46. -/
def video_extensions : List String := [".mp4", ".mov", ".avi"]

/-- main_window.py line 323: the four tiers offered by the GUI combo box
(Максимальное = Maximum, then High, Medium, Low). -/
def gui_quality_levels : List String :=
  ["Максимальное", "Высокое", "Среднее", "Низкое"]

/-- One row of VideoProcessor.quality_map (video_processor.py lines 21-62). -/
structure VideoSettings where
  crf : Nat
  preset : String
  scale : String
  audio_bitrate : String
  threads : String
  profile : String
  level : String
  x264opts : String
deriving Repr, DecidableEq

/-- video_processor.py lines 21-62: per-tier ffmpeg parameters. -/
def video_quality_map : List (String × VideoSettings) :=
  [("Максимальное",
    { crf := 18, preset := "slow", scale := "iw:ih", audio_bitrate := "320k",
      threads := "0", profile := "high", level := "4.2",
      x264opts := "ref=5:me=umh:subme=8:trellis=1:rc-lookahead=60:deblock=0:0:psy-rd=0.8,0.1" }),
   ("Высокое",
    { crf := 20, preset := "medium",
      scale := "iw*min(1920/iw\\,1):ih*min(1080/ih\\,1):force_original_aspect_ratio=decrease",
      audio_bitrate := "256k", threads := "0", profile := "high", level := "4.1",
      x264opts := "ref=4:me=hex:subme=7:trellis=1:rc-lookahead=50:deblock=1,1:psy-rd=0.8,0.1" }),
   ("Среднее",
    { crf := 23, preset := "faster",
      scale := "iw*min(1280/iw\\,1):ih*min(720/ih\\,1):force_original_aspect_ratio=decrease",
      audio_bitrate := "192k", threads := "0", profile := "high", level := "4.0",
      x264opts := "ref=3:me=hex:subme=6:trellis=1:rc-lookahead=40:deblock=1,1:psy-rd=0.6,0.1" }),
   ("Низкое",
    { crf := 26, preset := "veryfast",
      scale := "iw*min(854/iw\\,1):ih*min(480/ih\\,1):force_original_aspect_ratio=decrease",
      audio_bitrate := "128k", threads := "0", profile := "main", level := "3.1",
      x264opts := "ref=2:me=dia:subme=4:trellis=0:rc-lookahead=30:deblock=1,1:psy-rd=0.4,0.0" })]

/-- video_processor.py lines 239-244: per-tier target bitrates (informational). -/
def video_bitrates : List (String × String) :=
  [("Максимальное", "8M"), ("Высокое", "6M"), ("Среднее", "4M"), ("Низкое", "2M")]

/-! ### Path and string helpers (os.path.basename / splitext / str.lower) -/

/-- str.lower restricted to ASCII, which covers every extension string used. -/
def lowerStr (s : String) : String := String.mk (s.toList.map Char.toLower)

/-- Split a character list at every occurrence of a separator character. -/
def splitOnChar (sep : Char) : List Char → List (List Char)
  | [] => [[]]
  | c :: cs =>
    let rest := splitOnChar sep cs
    if c = sep then [] :: rest
    else
      match rest with
      | [] => [[c]]
      | r :: rs => (c :: r) :: rs

/-- os.path.basename: the component after the last slash. -/
def pyBasename (p : String) : String :=
  String.mk ((splitOnChar '/' p.toList).getLastD p.toList)

/-- os.path.splitext applied to a bare file name, returning the extension
(with the leading dot). A run of leading dots belongs to the base name,
matching the Python behaviour on names such as ".bashrc". -/
def splitext_ext (name : String) : String :=
  let cs := name.toList
  let lead := cs.takeWhile (fun c => c = '.')
  let rest := cs.drop lead.length
  let revTail := rest.reverse.takeWhile (fun c => c != '.')
  if revTail.length = rest.length then "" else String.mk ('.' :: revTail.reverse)

/-- The lower-cased extension of a path, as computed at every dispatch
site (os.path.splitext(path)[1].lower()). -/
def lowerExt (p : String) : String := lowerStr (splitext_ext (pyBasename p))

/-- os.path.join for the two-argument uses in the program. -/
def pyJoin (dir name : String) : String := dir ++ "/" ++ name

/-- Substring containment, used to state whether an error message carries
a given diagnostic text. -/
def containsSubstr (s sub : String) : Bool :=
  decide (sub.toList <:+: s.toList)

/-! ### The HEIC cascading fallback chain (image_processor.py lines 128-225)

The externals of each mechanism are collected in HeicEnv: whether the PIL
decode succeeds, whether the platform is macOS and sips succeeds, whether
ImageMagick / FFmpeg are on the search path and whether their subprocess
invocations succeed. Everything else (the order of the attempts, the
known quality-map lookups inside steps 1, 3 and 4, which error is raised
at the end) is translated from the source. -/

structure HeicEnv where
  /-- Step 1: the PIL decode of the HEIC file (Image.open, line 133);
  error carries the exception text. The subsequent JPEG save is assumed
  to succeed whenever the decode and the quality lookup do. -/
  pillow : Except String Unit
  /-- sys.platform == "darwin" (line 162). -/
  isDarwin : Bool
  /-- Step 2: the sips subprocess (lines 163-175); only run on macOS. -/
  sips : Except String Unit
  /-- shutil.which("convert") is non-None (line 182). -/
  hasConvert : Bool
  /-- Step 3: the ImageMagick convert subprocess (lines 183-193). -/
  convert : Except String Unit
  /-- shutil.which("ffmpeg") is non-None (line 200). -/
  hasFfmpeg : Bool
  /-- Step 4: the ffmpeg single-frame subprocess (lines 201-214). -/
  ffmpeg : Except String Unit
deriving Repr

/-- The text of the Python KeyError raised when a quality-map lookup on a
missing tier name fails. -/
def keyErrorMsg (q : String) : String := "KeyError: " ++ q

/-- image_processor.py lines 220-222: raised when no mechanism applies. -/
def heic_generic_error : String :=
  "Не удалось обработать HEIC файл ни одним из доступных методов"

/-- The downscaling applied by the PIL paths (lines 137-145): if a side
exceeds 4096, scale by ratio = min(4096/w, 4096/h) = 4096 / max w h;
int() truncation of the float product is modelled by Nat floor division. -/
def heicResizeDims (w h : Nat) : Nat × Nat :=
  if 4096 < w ∨ 4096 < h then (w * 4096 / max w h, h * 4096 / max w h) else (w, h)

/-- Steps 3 and 4 of the chain (ImageMagick, then FFmpeg). The first
component is the overall outcome (on success: the output path and the
index of the step that produced it); the second is the list of step
indices whose mechanism body was entered, appended to the accumulator. -/
def heicStep34 (quality : String) (env : HeicEnv) (outputPath : String)
    (tr : List Nat) : Except String (String × Nat) × List Nat :=
  let after3 : List Nat := if env.hasConvert then tr ++ [3] else tr
  let s3 : Except String Unit :=
    if env.hasConvert then
      match List.lookup quality heic_quality_map with
      | none => .error (keyErrorMsg quality)
      | some _ => env.convert
    else .error "convert not found"
  match env.hasConvert, s3 with
  | true, .ok _ => (.ok (outputPath, 3), after3)
  | _, _ =>
    if env.hasFfmpeg then
      let s4 : Except String Unit :=
        match List.lookup quality heic_quality_map with
        | none => .error (keyErrorMsg quality)
        | some _ => env.ffmpeg
      match s4 with
      | .ok _ => (.ok (outputPath, 4), after3 ++ [4])
      | .error e => (.error e, after3 ++ [4])
    else (.error heic_generic_error, after3)

/-- Step 1 of the chain: the PIL decode and JPEG re-encode at the
HEIC-specific quality factor; the quality lookup raises a KeyError when
the tier is absent from the table. -/
def heicStep1 (quality : String) (env : HeicEnv) : Except String Unit :=
  match env.pillow with
  | .error e => .error e
  | .ok _ =>
    match List.lookup quality heic_quality_map with
    | none => .error (keyErrorMsg quality)
    | some _ => .ok ()

/-- ImageProcessor._process_heic (lines 128-225): the four-step fallback
chain. Step 1 is the PIL decode + JPEG re-encode at the HEIC quality
factor; step 2 is sips (macOS only); steps 3 and 4 are in heicStep34.
A failing intermediate step is caught and the chain continues; when the
FFmpeg step runs and fails its error is re-raised (through the outer
handler, which re-raises unchanged); when it cannot run the generic
message is raised instead. -/
def process_heic (quality : String) (env : HeicEnv) (outputPath : String) :
    Except String (String × Nat) × List Nat :=
  match heicStep1 quality env with
  | .ok _ => (.ok (outputPath, 1), [1])
  | .error _ =>
    if env.isDarwin then
      match env.sips with
      | .ok _ => (.ok (outputPath, 2), [1, 2])
      | .error _ => heicStep34 quality env outputPath [1, 2]
    else heicStep34 quality env outputPath [1]

/-- Whether an Except value is a success. -/
def exceptOk {ε α : Type} : Except ε α → Bool
  | .ok _ => true
  | .error _ => false

/-- Mechanism 1 succeeds: PIL decodes and the HEIC quality key exists. -/
def step1Succeeds (q : String) (env : HeicEnv) : Bool :=
  exceptOk env.pillow && (List.lookup q heic_quality_map).isSome

/-- Mechanism 2 succeeds: on macOS and the sips run succeeds. -/
def step2Succeeds (env : HeicEnv) : Bool := env.isDarwin && exceptOk env.sips

/-- Mechanism 3 succeeds: convert is installed, the quality key exists and
the run succeeds. -/
def step3Succeeds (q : String) (env : HeicEnv) : Bool :=
  env.hasConvert && ((List.lookup q heic_quality_map).isSome && exceptOk env.convert)

/-- Mechanism 4 succeeds: ffmpeg is installed, the quality key exists and
the run succeeds. -/
def step4Succeeds (q : String) (env : HeicEnv) : Bool :=
  env.hasFfmpeg && ((List.lookup q heic_quality_map).isSome && exceptOk env.ffmpeg)

/-- The error the chain raises when every mechanism fails: the FFmpeg
step's own error when FFmpeg was present (its KeyError on a missing tier,
or the subprocess error, re-raised), the generic message otherwise. -/
def heicFinalErr (q : String) (env : HeicEnv) : String :=
  if env.hasFfmpeg then
    match List.lookup q heic_quality_map with
    | none => keyErrorMsg q
    | some _ =>
      match env.ffmpeg with
      | .error e => e
      | .ok _ => heic_generic_error
  else heic_generic_error

theorem bool_and_true {a b : Bool} (h : (a && b) = true) : a = true ∧ b = true := by
  simp at h
  exact h

theorem heicStep1_ok_iff (q : String) (env : HeicEnv) :
    heicStep1 q env = .ok () ↔ step1Succeeds q env = true := by
  cases hpl : env.pillow <;> cases hlk : List.lookup q heic_quality_map <;>
    simp [heicStep1, step1Succeeds, exceptOk, hpl, hlk]

theorem heicStep1_error_of (q : String) (env : HeicEnv)
    (h : step1Succeeds q env = false) : ∃ e, heicStep1 q env = .error e := by
  cases hs : heicStep1 q env with
  | ok u =>
    cases u
    exact absurd ((heicStep1_ok_iff q env).mp hs) (by simp [h])
  | error e => exact ⟨e, rfl⟩

theorem process_heic_s1err (q : String) (env : HeicEnv) (out e : String)
    (h : heicStep1 q env = .error e) :
    process_heic q env out =
      if env.isDarwin then
        match env.sips with
        | .ok _ => (.ok (out, 2), [1, 2])
        | .error _ => heicStep34 q env out [1, 2]
      else heicStep34 q env out [1] := by
  simp [process_heic, h]

theorem heicStep34_s3ok (q : String) (env : HeicEnv) (out : String)
    (tr : List Nat) (v : Nat) (hhc : env.hasConvert = true)
    (hv : List.lookup q heic_quality_map = some v)
    (hcv : env.convert = .ok ()) :
    heicStep34 q env out tr = (.ok (out, 3), tr ++ [3]) := by
  simp [heicStep34, hhc, hv, hcv]

theorem heicStep34_s3fail (q : String) (env : HeicEnv) (out : String)
    (tr : List Nat) (h3 : step3Succeeds q env = false) :
    heicStep34 q env out tr =
      if env.hasFfmpeg then
        match (match List.lookup q heic_quality_map with
               | none => (Except.error (keyErrorMsg q) : Except String Unit)
               | some _ => env.ffmpeg) with
        | .ok _ => (.ok (out, 4), (if env.hasConvert then tr ++ [3] else tr) ++ [4])
        | .error e => (.error e, (if env.hasConvert then tr ++ [3] else tr) ++ [4])
      else (.error heic_generic_error, if env.hasConvert then tr ++ [3] else tr) := by
  cases hhc : env.hasConvert <;> cases hlk : List.lookup q heic_quality_map <;>
    cases hcv : env.convert
  · simp [heicStep34, hhc, hlk, hcv]
  · simp [heicStep34, hhc, hlk, hcv]
  · simp [heicStep34, hhc, hlk, hcv]
  · simp [heicStep34, hhc, hlk, hcv]
  · simp [heicStep34, hhc, hlk, hcv]
  · simp [heicStep34, hhc, hlk, hcv]
  · simp [heicStep34, hhc, hlk, hcv]
  · exfalso
    rw [step3Succeeds, hhc, hlk, hcv] at h3
    simp [exceptOk] at h3

theorem process_heic_ok_of_step1 (q : String) (env : HeicEnv) (out : String)
    (h1 : step1Succeeds q env = true) :
    process_heic q env out = (.ok (out, 1), [1]) := by
  have hok : heicStep1 q env = .ok () := (heicStep1_ok_iff q env).mpr h1
  simp [process_heic, hok]

theorem process_heic_ok_of_step2 (q : String) (env : HeicEnv) (out : String)
    (h1 : step1Succeeds q env = false) (h2 : step2Succeeds env = true) :
    process_heic q env out = (.ok (out, 2), [1, 2]) := by
  obtain ⟨e, he⟩ := heicStep1_error_of q env h1
  obtain ⟨hdar, hsp⟩ := bool_and_true h2
  rw [process_heic_s1err q env out e he]
  cases hs : env.sips with
  | ok u =>
    rw [if_pos hdar]
  | error e2 =>
    rw [hs] at hsp
    simp [exceptOk] at hsp

theorem process_heic_ok_of_step3 (q : String) (env : HeicEnv) (out : String)
    (h1 : step1Succeeds q env = false) (h2 : step2Succeeds env = false)
    (h3 : step3Succeeds q env = true) :
    (process_heic q env out).1 = .ok (out, 3) ∧ 4 ∉ (process_heic q env out).2 := by
  obtain ⟨e, he⟩ := heicStep1_error_of q env h1
  obtain ⟨hhc, h3'⟩ := bool_and_true h3
  obtain ⟨hvs, hcv⟩ := bool_and_true h3'
  obtain ⟨v, hv⟩ := Option.isSome_iff_exists.mp hvs
  have hcv' : env.convert = .ok () := by
    cases hc2 : env.convert with
    | ok u => cases u; rfl
    | error e2 =>
      rw [hc2] at hcv
      simp [exceptOk] at hcv
  rw [process_heic_s1err q env out e he]
  cases hdar : env.isDarwin
  case false =>
    show (heicStep34 q env out [1]).1 = .ok (out, 3) ∧
      4 ∉ (heicStep34 q env out [1]).2
    rw [heicStep34_s3ok q env out [1] v hhc hv hcv']
    refine ⟨rfl, ?_⟩
    show (4 : Nat) ∉ ([1] ++ [3] : List Nat)
    decide
  case true =>
    have hsf : exceptOk env.sips = false := by
      have h2' := h2
      rw [step2Succeeds, hdar] at h2'
      simpa using h2'
    cases hs : env.sips with
    | ok u =>
      rw [hs] at hsf
      simp [exceptOk] at hsf
    | error e2 =>
      show (heicStep34 q env out [1, 2]).1 = .ok (out, 3) ∧
        4 ∉ (heicStep34 q env out [1, 2]).2
      rw [heicStep34_s3ok q env out [1, 2] v hhc hv hcv']
      refine ⟨rfl, ?_⟩
      show (4 : Nat) ∉ ([1, 2] ++ [3] : List Nat)
      decide

theorem process_heic_ok_of_step4 (q : String) (env : HeicEnv) (out : String)
    (h1 : step1Succeeds q env = false) (h2 : step2Succeeds env = false)
    (h3 : step3Succeeds q env = false) (h4 : step4Succeeds q env = true) :
    (process_heic q env out).1 = .ok (out, 4) := by
  obtain ⟨e, he⟩ := heicStep1_error_of q env h1
  obtain ⟨hhf, h4'⟩ := bool_and_true h4
  obtain ⟨hvs, hff⟩ := bool_and_true h4'
  obtain ⟨v, hv⟩ := Option.isSome_iff_exists.mp hvs
  have hff' : env.ffmpeg = .ok () := by
    cases hf2 : env.ffmpeg with
    | ok u => cases u; rfl
    | error e2 =>
      rw [hf2] at hff
      simp [exceptOk] at hff
  have h34 : ∀ tr, (heicStep34 q env out tr).1 = .ok (out, 4) := by
    intro tr
    simp [heicStep34_s3fail q env out tr h3, hhf, hv, hff']
  rw [process_heic_s1err q env out e he]
  cases hdar : env.isDarwin
  case false =>
    exact h34 [1]
  case true =>
    have hsf : exceptOk env.sips = false := by
      have h2' := h2
      rw [step2Succeeds, hdar] at h2'
      simpa using h2'
    cases hs : env.sips with
    | ok u =>
      rw [hs] at hsf
      simp [exceptOk] at hsf
    | error e2 =>
      exact h34 [1, 2]

theorem process_heic_err_all (q : String) (env : HeicEnv) (out : String)
    (h1 : step1Succeeds q env = false) (h2 : step2Succeeds env = false)
    (h3 : step3Succeeds q env = false) (h4 : step4Succeeds q env = false) :
    (process_heic q env out).1 = .error (heicFinalErr q env) := by
  obtain ⟨e, he⟩ := heicStep1_error_of q env h1
  have h34 : ∀ tr, (heicStep34 q env out tr).1 = .error (heicFinalErr q env) := by
    intro tr
    rw [heicStep34_s3fail q env out tr h3]
    cases hhf : env.hasFfmpeg
    case false => simp [heicFinalErr, hhf]
    case true =>
      cases hlk : List.lookup q heic_quality_map
      case none => simp [heicFinalErr, hhf, hlk]
      case some v =>
        cases hff : env.ffmpeg with
        | error e2 => simp [heicFinalErr, hhf, hlk, hff]
        | ok u =>
          exfalso
          rw [step4Succeeds, hhf, hlk, hff] at h4
          simp [exceptOk] at h4
  rw [process_heic_s1err q env out e he]
  cases hdar : env.isDarwin
  case false =>
    exact h34 [1]
  case true =>
    have hsf : exceptOk env.sips = false := by
      have h2' := h2
      rw [step2Succeeds, hdar] at h2'
      simpa using h2'
    cases hs : env.sips with
    | ok u =>
      rw [hs] at hsf
      simp [exceptOk] at hsf
    | error e2 =>
      exact h34 [1, 2]

/-- On every successful branch, the HEIC chain returns the output path it
was given (every mechanism writes to output_path and returns it). -/
theorem process_heic_ok_path (q : String) (env : HeicEnv) (out : String)
    {p : String} {s : Nat} {tr : List Nat}
    (h : process_heic q env out = (.ok (p, s), tr)) : p = out := by
  have hfst : (process_heic q env out).1 = .ok (p, s) := by rw [h]
  by_cases h1 : step1Succeeds q env = true
  · rw [process_heic_ok_of_step1 q env out h1] at hfst
    injection hfst with ha
    injection ha with hp hs2
    exact hp.symm
  · rw [Bool.not_eq_true] at h1
    by_cases h2 : step2Succeeds env = true
    · rw [process_heic_ok_of_step2 q env out h1 h2] at hfst
      injection hfst with ha
      injection ha with hp hs2
      exact hp.symm
    · rw [Bool.not_eq_true] at h2
      by_cases h3 : step3Succeeds q env = true
      · rw [(process_heic_ok_of_step3 q env out h1 h2 h3).1] at hfst
        injection hfst with ha
        injection ha with hp hs2
        exact hp.symm
      · rw [Bool.not_eq_true] at h3
        by_cases h4 : step4Succeeds q env = true
        · rw [process_heic_ok_of_step4 q env out h1 h2 h3 h4] at hfst
          injection hfst with ha
          injection ha with hp hs2
          exact hp.symm
        · rw [Bool.not_eq_true] at h4
          rw [process_heic_err_all q env out h1 h2 h3 h4] at hfst
          injection hfst

/-! ### ImageProcessor.compress_image (lines 41-96) -/

/-- What kind of write each branch of the image compressor performs. -/
inductive SaveFormat where
  /-- PIL JPEG save at the map quality, with or without exif (lines 77-81). -/
  | jpegSave (quality : Nat) (exif : Option String)
  /-- PIL PNG save with optimize=True, no quality factor (line 84). -/
  | pngOptimize
  /-- shutil.copy2: the output bytes equal the input bytes (line 87). -/
  | copyVerbatim
  /-- RGB-convert + JPEG save for other extensions (lines 90-91). -/
  | jpegConvert (quality : Nat)
  /-- HEIC step 1: PIL JPEG save at the HEIC quality factor (lines 148-155). -/
  | heicJpegSave (quality : Nat)
  /-- HEIC step 2: sips format conversion. -/
  | sipsConvert
  /-- HEIC step 3: ImageMagick convert at the HEIC quality factor. -/
  | magickConvert (quality : Nat)
  /-- HEIC step 4: ffmpeg single frame with the 4096 scale filter. -/
  | ffmpegFrame (quality : Nat)
deriving Repr, DecidableEq

/-- The single output file a successful compress_image call writes. dims
is the pixel size of the written image when the program computes it (the
PIL paths); none for the external-tool HEIC mechanisms. -/
structure ImageWrite where
  path : String
  format : SaveFormat
  dims : Option (Nat × Nat)
deriving Repr, DecidableEq

/-- Externals of compress_image for non-HEIC inputs, plus the HEIC chain
environment. -/
structure ImgEnv where
  /-- Image.open at line 66 succeeds. -/
  pillowOk : Bool
  /-- The exception text when it does not. -/
  pillowErr : String
  /-- img.info.get("exif") when present (lines 70-71). -/
  exif : Option String
  heic : HeicEnv
deriving Repr

/-- image_processor.py line 96: the wrapper put around any exception of
the non-HEIC branch. -/
def imageErrorMsg (fileName msg : String) : String :=
  "Ошибка при сжатии изображения " ++ fileName ++ ": " ++ msg

/-- ImageProcessor.compress_image (lines 41-96): basename and lower-cased
extension are computed, the output path is output_dir/file_name, HEIC is
dispatched to the fallback chain, and the remaining formats re-encode or
copy after the quality lookup at line 74 (which precedes every format
branch, including PNG and GIF). -/
def compress_image (image_path output_dir quality_level : String)
    (dims : Nat × Nat) (env : ImgEnv) : Except String ImageWrite :=
  let file_name := pyBasename image_path
  let file_ext := lowerStr (splitext_ext file_name)
  let output_path := pyJoin output_dir file_name
  if file_ext = ".heic" then
    match process_heic quality_level env.heic output_path with
    | (.ok (p, step), _) =>
      let hq := (List.lookup quality_level heic_quality_map).getD 0
      .ok { path := p,
            format :=
              if step = 1 then .heicJpegSave hq
              else if step = 2 then .sipsConvert
              else if step = 3 then .magickConvert hq
              else .ffmpegFrame hq,
            dims := if step = 1 then some (heicResizeDims dims.1 dims.2) else none }
    | (.error e, _) => .error e
  else
    if env.pillowOk = false then .error (imageErrorMsg file_name env.pillowErr)
    else
      match List.lookup quality_level quality_map with
      | none => .error (imageErrorMsg file_name (keyErrorMsg quality_level))
      | some quality =>
        if file_ext = ".jpg" ∨ file_ext = ".jpeg" then
          .ok { path := output_path, format := .jpegSave quality env.exif,
                dims := some dims }
        else if file_ext = ".png" then
          .ok { path := output_path, format := .pngOptimize, dims := some dims }
        else if file_ext = ".gif" then
          .ok { path := output_path, format := .copyVerbatim, dims := some dims }
        else
          .ok { path := output_path, format := .jpegConvert quality,
                dims := some dims }

/-- A fully healthy environment, used by concrete examples. -/
def imgEnvOk : ImgEnv :=
  { pillowOk := true, pillowErr := "", exif := none,
    heic := { pillow := .ok (), isDarwin := false, sips := .ok (),
              hasConvert := true, convert := .ok (),
              hasFfmpeg := true, ffmpeg := .ok () } }

/-! ### VideoProcessor.compress_video (video_processor.py lines 210-336) -/

/-- os.path.splitext base part: the name with its extension removed. -/
def splitext_base (name : String) : String :=
  String.mk (name.toList.take (name.toList.length - (splitext_ext name).toList.length))

/-- Externals of compress_video: whether _check_ffmpeg succeeds (after its
own system-path fallback), and the outcomes of the two encoder runs. -/
structure VideoEnv where
  ffmpegAvailable : Bool
  /-- The primary ffmpeg invocation (lines 283-285). -/
  primary : Except String Unit
  /-- The fallback invocation (lines 316-318). -/
  fallback : Except String Unit
  /-- The decoded stderr of the fallback failure (lines 324-328); it is
  only ever logged. -/
  fallbackStderr : String
deriving Repr

/-- video_processor.py lines 223-225. -/
def ffmpeg_unavailable_error : String :=
  "FFmpeg не доступен. Пожалуйста, свяжитесь с разработчиком."

/-- video_processor.py lines 330-332: the message raised when the retry
also fails. It is a fixed string; the stderr of the retry is logged but
not attached. -/
def video_fallback_error : String :=
  "Не удалось сжать видео. Формат файла может быть несовместим."

/-- The primary ffmpeg command (lines 250-278), assembled from the tier
settings. The tool path is abbreviated to the plain name; its bundled
versus system resolution is out of scope. -/
def primaryVideoCmd (ffmpegPath videoPath outputPath : String)
    (s : VideoSettings) : List String :=
  [ffmpegPath, "-i", videoPath,
   "-c:v", "libx264", "-crf", toString s.crf, "-preset", s.preset,
   "-profile:v", s.profile, "-level", s.level, "-vf", s.scale,
   "-c:a", "aac", "-b:a", s.audio_bitrate, "-threads", s.threads,
   "-map_metadata", "0", "-movflags", "faststart", "-y", outputPath]

/-- The conservative retry command (lines 296-312): fixed crf 20, preset
medium, no scale filter, fixed 192k audio; independent of the tier. -/
def fallbackVideoCmd (ffmpegPath videoPath outputPath : String) : List String :=
  [ffmpegPath, "-i", videoPath, "-c:v", "libx264", "-crf", "20",
   "-preset", "medium", "-c:a", "aac", "-b:a", "192k", "-y", outputPath]

/-- VideoProcessor.compress_video: checks the tool, forces the .mp4 output
name, resolves the tier settings (KeyError on an unknown tier, line 235),
invokes the primary command, retries once on failure, and raises the fixed
incompatibility message when the retry also fails. The second component
lists the encoder invocations actually made. -/
def compress_video (video_path output_dir quality_level : String)
    (env : VideoEnv) : Except String String × List (List String) :=
  if env.ffmpegAvailable = false then (.error ffmpeg_unavailable_error, [])
  else
    let file_name := pyBasename video_path
    let output_name := splitext_base file_name ++ ".mp4"
    let output_path := pyJoin output_dir output_name
    match List.lookup quality_level video_quality_map with
    | none => (.error (keyErrorMsg quality_level), [])
    | some s =>
      let cmd1 := primaryVideoCmd "ffmpeg" video_path output_path s
      match env.primary with
      | .ok _ => (.ok output_path, [cmd1])
      | .error _ =>
        let cmd2 := fallbackVideoCmd "ffmpeg" video_path output_path
        match env.fallback with
        | .ok _ => (.ok output_path, [cmd1, cmd2])
        | .error _ => (.error video_fallback_error, [cmd1, cmd2])

/-! ### CompressionManager.compress_file (compression_manager.py lines 21-71) -/

/-- The file-system effects compress_file performs before dispatching. -/
inductive FsAct where
  | existsCheck
  | makedirs
deriving Repr, DecidableEq

/-- compression_manager.py line 35. -/
def file_not_found_error (p : String) : String := "Файл " ++ p ++ " не найден"

/-- Python str.join with a comma separator. -/
def joinComma : List String → String
  | [] => ""
  | [x] => x
  | x :: xs => x ++ ", " ++ joinComma xs

/-- compression_manager.py lines 67-71: the rejection message, naming the
two supported extension lists. -/
def unsupported_error (file_path : String) : String :=
  "Неподдерживаемый тип файла: " ++ file_path ++
  ". Поддерживаемые форматы: изображения " ++ joinComma image_extensions ++
  ", видео " ++ joinComma video_extensions

/-- The dispatched result of a compress_file call. -/
inductive ManagerOut where
  | imageOut (w : ImageWrite)
  | videoOut (path : String) (invocations : List (List String))
deriving Repr

/-- CompressionManager.compress_file: existence check first (line 34),
then output-directory creation if absent (lines 38-39) — before the
extension is even examined — then classification by lower-cased extension
and dispatch. The can_process re-check of each processor tests the same
extension list and is therefore always true at its call site. -/
def compress_file (sourceExists outputDirExists : Bool)
    (file_path output_dir quality_level : String) (dims : Nat × Nat)
    (ienv : ImgEnv) (venv : VideoEnv) :
    Except String ManagerOut × List FsAct :=
  if sourceExists = false then (.error (file_not_found_error file_path), [.existsCheck])
  else
    let acts := if outputDirExists then [FsAct.existsCheck]
                else [FsAct.existsCheck, FsAct.makedirs]
    let ext := lowerExt file_path
    if ext ∈ image_extensions then
      (match compress_image file_path output_dir quality_level dims ienv with
       | .ok w => .ok (.imageOut w)
       | .error e => .error e, acts)
    else if ext ∈ video_extensions then
      (match compress_video file_path output_dir quality_level venv with
       | (.ok p, invs) => .ok (.videoOut p invs)
       | (.error e, _) => .error e, acts)
    else (.error (unsupported_error file_path), acts)

/-! ### The batch pipeline (main_window.py, CompressionThread.run, lines 52-190)

The thread iterates the task list sequentially, checks the cooperative
stopped flag before dispatching each task, records per-file statistics or
failures, always increments the processed counter in the finally block,
and after the loop emits a consolidated failure report (if any), a final
progress event with percent = 100, and the finished signal.

Wall-clock quantities (remaining_time, the float change percentage) are
not modelled. The interim percent int(processed / total * 100) is
modelled by Nat floor division; no settled claim depends on its value. -/

/-- What CompressionManager.compress_file does to one task, together with
the sizes read around it. -/
inductive Outcome where
  /-- os.path.getsize of source and of the compressed output. -/
  | success (originalSize compressedSize : Nat)
  /-- The exception text; originalSize was already read and added to the
  running bytes-in total before the failure (lines 100-101 precede the
  compress call). -/
  | failure (originalSize : Nat) (errMsg : String)
deriving Repr, DecidableEq

/-- One entry of the file_stats list (lines 125-131). -/
structure FileStat where
  file : String
  original_size : Nat
  compressed_size : Nat
deriving Repr, DecidableEq

/-- One progress_update emission (percent as described above). -/
structure Event where
  file : String
  total : Nat
  processed : Nat
  percent : Nat
deriving Repr, DecidableEq

/-- The loop state of CompressionThread.run. -/
structure BatchState where
  processed : Nat
  stats : List FileStat
  failed : List (String × String)
  totalOrig : Nat
  totalComp : Nat
  events : List Event
deriving Repr, DecidableEq

/-- int(processed / total * 100), by Nat floor division. -/
def pct (processed total : Nat) : Nat := processed * 100 / total

/-- The cooperative stopped flag, observed at the check that precedes the
dispatch of the task with 0-based index i: some k means the stop request
arrived after k tasks had been dispatched. -/
def stopCheck (stopAt : Option Nat) (i : Nat) : Bool :=
  match stopAt with
  | none => false
  | some k => k ≤ i

/-- One loop iteration over a dispatched task (lines 85-158): pre-task
progress event, then the outcome (success folds the sizes and appends a
stat; failure appends to the failed list), then the finally block counts
the task and emits the post-task event. -/
def batchStep (total : Nat) (task : String × Outcome) (st : BatchState) :
    BatchState :=
  let rel := task.1
  let preEvents := st.events ++ [⟨rel, total, st.processed, pct st.processed total⟩]
  match task.2 with
  | .success o c =>
    { processed := st.processed + 1
      stats := st.stats ++ [⟨rel, o, c⟩]
      failed := st.failed
      totalOrig := st.totalOrig + o
      totalComp := st.totalComp + c
      events := preEvents ++ [⟨rel, total, st.processed + 1, pct (st.processed + 1) total⟩] }
  | .failure o e =>
    { processed := st.processed + 1
      stats := st.stats
      failed := st.failed ++ [(rel, e)]
      totalOrig := st.totalOrig + o
      totalComp := st.totalComp
      events := preEvents ++ [⟨rel, total, st.processed + 1, pct (st.processed + 1) total⟩] }

/-- The task loop (lines 75-158): before each dispatch the stopped flag is
checked; a set flag breaks the loop and no further task is dispatched. -/
def runLoop (total : Nat) (stopAt : Option Nat) :
    List (String × Outcome) → Nat → BatchState → BatchState
  | [], _, st => st
  | t :: ts, i, st =>
    if stopCheck stopAt i then st
    else runLoop total stopAt ts (i + 1) (batchStep total t st)

/-- The consolidated end-of-batch failure report (lines 161-165). -/
def consolidatedMsg (failed : List (String × String)) : String :=
  "Следующие файлы не удалось обработать:\n\n" ++
  String.join (failed.map (fun p => "• " ++ p.1 ++ ": " ++ p.2 ++ "\n\n"))

/-- Everything CompressionThread.run leaves behind / emits. -/
structure BatchResult where
  processedFiles : Nat
  fileStats : List FileStat
  failedFiles : List (String × String)
  totalOriginal : Nat
  totalCompressed : Nat
  events : List Event
  consolidatedError : Option String
  finished : Bool
deriving Repr, DecidableEq

/-- The state before the loop starts, after the initial zero-percent
progress event (lines 62-71). -/
def batchInit (total : Nat) : BatchState :=
  ⟨0, [], [], 0, 0, [⟨"", total, 0, 0⟩]⟩

/-- CompressionThread.run (lines 52-178): initial zero-percent event, the
task loop, the consolidated failure report when any file failed, the final
event with the literal percent 100 (lines 167-176), and the finished
signal (line 178) — the last three happen whether or not the loop was
stopped early. -/
def runBatch (tasks : List (String × Outcome)) (stopAt : Option Nat) :
    BatchResult :=
  let total := tasks.length
  let fin := runLoop total stopAt tasks 0 (batchInit total)
  { processedFiles := fin.processed
    fileStats := fin.stats
    failedFiles := fin.failed
    totalOriginal := fin.totalOrig
    totalCompressed := fin.totalComp
    events := fin.events ++ [⟨"", total, fin.processed, 100⟩]
    consolidatedError :=
      if fin.failed.isEmpty then none else some (consolidatedMsg fin.failed)
    finished := true }

/-- The stats of the successful tasks, in order. -/
def successStats (ts : List (String × Outcome)) : List FileStat :=
  ts.filterMap (fun t =>
    match t.2 with
    | .success o c => some ⟨t.1, o, c⟩
    | .failure _ _ => none)

/-- The (file, error) pairs of the failing tasks, in order. -/
def failureList (ts : List (String × Outcome)) : List (String × String) :=
  ts.filterMap (fun t =>
    match t.2 with
    | .success _ _ => none
    | .failure _ e => some (t.1, e))

/-- Parse a bitrate string such as 192k to its numeric prefix. -/
def digitsToNat : List Char → Nat :=
  List.foldl (fun n c => n * 10 + (c.toNat - 48)) 0

/-- Numeric value of an ffmpeg bitrate string (the digits before the unit). -/
def kbps (s : String) : Nat := digitsToNat (s.toList.takeWhile (fun c => c.isDigit))

/-- The four tiers in ascending quality order (spec section 3: the
enumeration Low, Medium, High, Maximum). -/
def ascending_tiers : List String := ["Низкое", "Среднее", "Высокое", "Максимальное"]

/-- Modelled from the spec: the external encoder's speed-preset ladder
(glossary, speed preset), fastest first — the program itself only stores
the preset names, their ordering is ffmpeg semantics not present in src/. -/
def presetRank (p : String) : Nat :=
  if p = "ultrafast" then 0
  else if p = "superfast" then 1
  else if p = "veryfast" then 2
  else if p = "faster" then 3
  else if p = "fast" then 4
  else if p = "medium" then 5
  else if p = "slow" then 6
  else if p = "slower" then 7
  else if p = "veryslow" then 8
  else 9

/-- A placeholder settings row for getD; never the result of a successful
lookup. -/
def dummySettings : VideoSettings :=
  { crf := 0, preset := "", scale := "", audio_bitrate := "", threads := "",
    profile := "", level := "", x264opts := "" }

example : lowerExt "/a/b/Photo.JPG" = ".jpg" := by decide
example : lowerExt "archive.heic" = ".heic" := by decide
example : splitext_ext "noext" = "" := by decide
example : List.lookup "Максимальное" quality_map = none := by decide
example : List.lookup "Высокое" quality_map = some 80 := by decide
example : containsSubstr "abcdef" "cde" = true := by decide
example : containsSubstr "abcdef" "xyz" = false := by decide

example :
    compress_image "anim.gif" "out" "Высокое" (100, 50) imgEnvOk =
      .ok { path := "out/anim.gif", format := .copyVerbatim, dims := some (100, 50) } := rfl

example :
    compress_image "big.jpg" "out" "Высокое" (8192, 100) imgEnvOk =
      .ok { path := "out/big.jpg", format := .jpegSave 80 none, dims := some (8192, 100) } := rfl

example :
    compress_image "pic.heic" "out" "Среднее" (8192, 4096) imgEnvOk =
      .ok { path := "out/pic.heic", format := .heicJpegSave 60,
            dims := some (4096, 2048) } := rfl

example :
    compress_image "photo.jpg" "out" "Максимальное" (10, 10) imgEnvOk =
      .error (imageErrorMsg "photo.jpg" (keyErrorMsg "Максимальное")) := rfl

example :
    (process_heic "Высокое"
      { imgEnvOk.heic with pillow := .error "boom", hasConvert := false,
                           hasFfmpeg := false } "o.heic") =
      (.error heic_generic_error, [1]) := rfl

example :
    compress_video "clip.mov" "out" "Высокое"
      { ffmpegAvailable := true, primary := .ok (), fallback := .ok (),
        fallbackStderr := "" } =
      (.ok "out/clip.mp4",
       [primaryVideoCmd "ffmpeg" "clip.mov" "out/clip.mp4"
         ((List.lookup "Высокое" video_quality_map).getD dummySettings)]) := rfl

example :
    (compress_video "clip.mov" "out" "Высокое"
      { ffmpegAvailable := true, primary := .error "p", fallback := .error "f",
        fallbackStderr := "boom" }).1 = .error video_fallback_error := rfl

example :
    (compress_file true false "doc.txt" "out" "Высокое" (1, 1) imgEnvOk
      { ffmpegAvailable := true, primary := .ok (), fallback := .ok (),
        fallbackStderr := "" }) =
      (.error (unsupported_error "doc.txt"), [.existsCheck, .makedirs]) := rfl

example :
    (runBatch [("a.jpg", .success 10 5), ("b.jpg", .failure 8 "err"),
               ("c.jpg", .success 6 3)] none).processedFiles = 3 := rfl

example :
    (runBatch [("a.jpg", .success 10 5), ("b.jpg", .failure 8 "err"),
               ("c.jpg", .success 6 3)] none).failedFiles = [("b.jpg", "err")] := rfl

example :
    (runBatch [("a.jpg", .success 10 5), ("b.jpg", .failure 8 "err"),
               ("c.jpg", .success 6 3)] none).events.getLast? =
      some ⟨"", 3, 3, 100⟩ := rfl

example :
    (runBatch [("a.jpg", .success 10 5), ("b.jpg", .failure 8 "err"),
               ("c.jpg", .success 6 3)] (some 1)).processedFiles = 1 := rfl

example : unsupported_error "doc.txt" =
    "Неподдерживаемый тип файла: doc.txt. Поддерживаемые форматы: изображения .jpg, .jpeg, .png, .gif, .heic, видео .mp4, .mov, .avi" := rfl

/-! ### Helper lemmas -/

/-- A healthy video environment for concrete examples. -/
def videoEnvOk : VideoEnv :=
  { ffmpegAvailable := true, primary := .ok (), fallback := .ok (),
    fallbackStderr := "" }

/-- Both sides of the PIL downscale result are bounded by 4096. -/
theorem heicResizeDims_le (w h : Nat) :
    (heicResizeDims w h).1 ≤ 4096 ∧ (heicResizeDims w h).2 ≤ 4096 := by
  unfold heicResizeDims
  split
  · rename_i hwh
    have hpos : 0 < max w h := by
      rcases hwh with hw | hh
      · exact lt_of_lt_of_le (Nat.lt_of_lt_of_le (by norm_num) hw.le) (le_max_left w h)
      · exact lt_of_lt_of_le (Nat.lt_of_lt_of_le (by norm_num) hh.le) (le_max_right w h)
    constructor
    · calc w * 4096 / max w h ≤ max w h * 4096 / max w h :=
            Nat.div_le_div_right (Nat.mul_le_mul_right _ (le_max_left w h))
        _ = 4096 := by rw [Nat.mul_comm]; exact Nat.mul_div_cancel _ hpos
    · calc h * 4096 / max w h ≤ max w h * 4096 / max w h :=
            Nat.div_le_div_right (Nat.mul_le_mul_right _ (le_max_right w h))
        _ = 4096 := by rw [Nat.mul_comm]; exact Nat.mul_div_cancel _ hpos
  · rename_i hwh
    push_neg at hwh
    exact ⟨hwh.1, hwh.2⟩

/-! ### Claims -/

/-- C1: the quality tables are not total over the declared tier
enumeration. The GUI offers the Maximum tier (Максимальное), the video
table resolves it, but both image tables lack it, so compressing a JPEG
image at the Maximum tier fails with the wrapped KeyError instead of
resolving a numeric quality value. -/
theorem C1_image_quality_map_misses_maximum_tier :
    "Максимальное" ∈ gui_quality_levels ∧
    List.lookup "Максимальное" quality_map = none ∧
    List.lookup "Максимальное" heic_quality_map = none ∧
    (List.lookup "Максимальное" video_quality_map).isSome = true ∧
    compress_image "photo.jpg" "out" "Максимальное" (10, 10) imgEnvOk =
      .error (imageErrorMsg "photo.jpg" (keyErrorMsg "Максимальное")) :=
  ⟨by decide, by decide, by decide, by decide, rfl⟩

/-- C2 counterexample: a JPEG image 8192 pixels wide is re-encoded at its
original dimensions — compress_image performs no downscale on the
JPEG/PNG/GIF path, so a side exceeding 4096 survives to the output. -/
theorem C2_jpeg_not_downscaled_counterexample :
    compress_image "big.jpg" "out" "Высокое" (8192, 100) imgEnvOk =
      .ok { path := "out/big.jpg", format := .jpegSave 80 none,
            dims := some (8192, 100) } ∧
    4096 < 8192 :=
  ⟨rfl, by decide⟩

/-- C2 amended: only the HEIC native-decode path downscales to the 4096
bound (preserving aspect ratio through the common ratio); the JPEG, PNG
and GIF paths of compress_image keep the input dimensions unchanged. -/
theorem C2_downscale_only_on_heic_native_path
    (image_path output_dir q : String) (dims : Nat × Nat) (env : ImgEnv)
    (w : ImageWrite)
    (hok : compress_image image_path output_dir q dims env = .ok w) :
    (lowerExt image_path ≠ ".heic" → w.dims = some dims) ∧
    (lowerExt image_path = ".heic" → env.heic.pillow = .ok () →
      (List.lookup q heic_quality_map).isSome = true →
      w.dims = some (heicResizeDims dims.1 dims.2) ∧
      (heicResizeDims dims.1 dims.2).1 ≤ 4096 ∧
      (heicResizeDims dims.1 dims.2).2 ≤ 4096) := by
  constructor
  · intro hne
    have hne' : lowerStr (splitext_ext (pyBasename image_path)) ≠ ".heic" := hne
    simp only [compress_image] at hok
    rw [if_neg hne'] at hok
    split at hok
    · injection hok
    · split at hok
      · injection hok
      · split at hok
        · injection hok with h
          subst h
          rfl
        · split at hok
          · injection hok with h
            subst h
            rfl
          · split at hok
            · injection hok with h
              subst h
              rfl
            · injection hok with h
              subst h
              rfl
  · intro he hpl hq
    have he' : lowerStr (splitext_ext (pyBasename image_path)) = ".heic" := he
    obtain ⟨v, hv⟩ := Option.isSome_iff_exists.mp hq
    have hchain : process_heic q env.heic (pyJoin output_dir (pyBasename image_path)) =
        (.ok (pyJoin output_dir (pyBasename image_path), 1), [1]) := by
      simp [process_heic, heicStep1, hpl, hv]
    have hcalc : compress_image image_path output_dir q dims env =
        .ok { path := pyJoin output_dir (pyBasename image_path),
              format := .heicJpegSave ((List.lookup q heic_quality_map).getD 0),
              dims := some (heicResizeDims dims.1 dims.2) } := by
      simp only [compress_image]
      rw [if_pos he', hchain]
      rfl
    rw [hcalc] at hok
    injection hok with h
    subst h
    exact ⟨rfl, heicResizeDims_le dims.1 dims.2⟩

/-- C2 witness for the amended theorem: a JPEG keeps its size, an
oversized HEIC through the native path is bounded by 4096. -/
theorem C2_downscale_witness :
    (lowerExt "big.jpg" ≠ ".heic" →
      ({ path := "out/big.jpg", format := .jpegSave 80 none,
         dims := some (8192, 100) } : ImageWrite).dims = some (8192, 100)) ∧
    (lowerExt "big.jpg" = ".heic" → imgEnvOk.heic.pillow = .ok () →
      (List.lookup "Высокое" heic_quality_map).isSome = true →
      ({ path := "out/big.jpg", format := .jpegSave 80 none,
         dims := some (8192, 100) } : ImageWrite).dims =
          some (heicResizeDims 8192 100) ∧
      (heicResizeDims 8192 100).1 ≤ 4096 ∧ (heicResizeDims 8192 100).2 ≤ 4096) :=
  C2_downscale_only_on_heic_native_path "big.jpg" "out" "Высокое" (8192, 100)
    imgEnvOk _ rfl

/-- C8: whenever compress_image produces an output for a GIF input, that
output is the verbatim copy of the input file (shutil.copy2), never a
re-encode. -/
theorem C8_gif_copied_verbatim (image_path output_dir quality_level : String)
    (dims : Nat × Nat) (env : ImgEnv) (w : ImageWrite)
    (hext : lowerExt image_path = ".gif")
    (hok : compress_image image_path output_dir quality_level dims env = .ok w) :
    w.format = .copyVerbatim := by
  have hext' : lowerStr (splitext_ext (pyBasename image_path)) = ".gif" := hext
  simp only [compress_image] at hok
  rw [hext'] at hok
  rw [if_neg (show ¬(".gif" : String) = ".heic" by decide)] at hok
  split at hok
  · injection hok
  · split at hok
    · injection hok
    · rw [if_neg (show ¬((".gif" : String) = ".jpg" ∨ (".gif" : String) = ".jpeg") by decide),
          if_neg (show ¬(".gif" : String) = ".png" by decide),
          if_pos (show (".gif" : String) = ".gif" from rfl)] at hok
      injection hok with h
      subst h
      rfl

/-- C8 witness: a concrete GIF input evaluates to a verbatim copy. -/
theorem C8_gif_copied_verbatim_witness :
    lowerExt "anim.gif" = ".gif" ∧
    ({ path := "out/anim.gif", format := .copyVerbatim,
       dims := some (100, 50) } : ImageWrite).format = .copyVerbatim :=
  ⟨by decide,
   C8_gif_copied_verbatim "anim.gif" "out" "Высокое" (100, 50) imgEnvOk _
     (by decide) rfl⟩

/-- The settings row a tier resolves to (getD never fires on a tier in
video_quality_map). -/
def vset (t : String) : VideoSettings :=
  (List.lookup t video_quality_map).getD dummySettings

/-- C9 counterexample: the image quality tables have no entry for the
Maximum tier, so the claimed monotone resolution over all four tiers and
all media kinds fails for images and HEIC at Maximum. -/
theorem C9_image_maximum_unresolved_counterexample :
    "Максимальное" ∈ gui_quality_levels ∧
    List.lookup "Максимальное" quality_map = none ∧
    List.lookup "Максимальное" heic_quality_map = none := by
  decide

/-- C9 amended: over the tiers each table actually defines, the policy is
monotone — for video, from Low up to Maximum the preset gets slower, the
audio bitrate rises and the rate-control factor drops; for images and
HEIC the numeric quality rises from Low to High (Maximum is absent); at
every defined tier the HEIC quality is strictly below the JPEG quality. -/
theorem C9_policy_monotone_on_defined_tiers :
    (∀ i < ascending_tiers.length, ∀ j < ascending_tiers.length, i ≤ j →
      presetRank (vset (ascending_tiers.getD i "")).preset ≤
        presetRank (vset (ascending_tiers.getD j "")).preset ∧
      kbps (vset (ascending_tiers.getD i "")).audio_bitrate ≤
        kbps (vset (ascending_tiers.getD j "")).audio_bitrate ∧
      (vset (ascending_tiers.getD j "")).crf ≤
        (vset (ascending_tiers.getD i "")).crf) ∧
    (∀ i < 3, ∀ j < 3, i ≤ j →
      (List.lookup (ascending_tiers.getD i "") quality_map).getD 0 ≤
        (List.lookup (ascending_tiers.getD j "") quality_map).getD 0 ∧
      (List.lookup (ascending_tiers.getD i "") heic_quality_map).getD 0 ≤
        (List.lookup (ascending_tiers.getD j "") heic_quality_map).getD 0) ∧
    (∀ t ∈ ["Низкое", "Среднее", "Высокое"],
      (List.lookup t quality_map).isSome = true ∧
      (List.lookup t heic_quality_map).isSome = true ∧
      (List.lookup t heic_quality_map).getD 0 < (List.lookup t quality_map).getD 0) ∧
    (∀ t ∈ ascending_tiers, (List.lookup t video_quality_map).isSome = true) := by
  decide

/-- C10: every successful compress_image call writes to the output
directory under the unchanged input base name (extension included), and a
HEIC input decoded by the native path is saved as JPEG content at that
.heic-named path. -/
theorem C10_output_keeps_input_name (image_path output_dir quality_level : String)
    (dims : Nat × Nat) (env : ImgEnv) (w : ImageWrite)
    (hok : compress_image image_path output_dir quality_level dims env = .ok w) :
    w.path = pyJoin output_dir (pyBasename image_path) ∧
    (lowerExt image_path = ".heic" → env.heic.pillow = .ok () →
      (List.lookup quality_level heic_quality_map).isSome = true →
      w.format = .heicJpegSave ((List.lookup quality_level heic_quality_map).getD 0)) := by
  constructor
  · simp only [compress_image] at hok
    split at hok
    · rename_i hheic
      split at hok
      · rename_i res p step tr hres
        injection hok with h
        subst h
        exact process_heic_ok_path quality_level env.heic _ hres
      · injection hok
    · split at hok
      · injection hok
      · split at hok
        · injection hok
        · split at hok
          · injection hok with h
            subst h
            rfl
          · split at hok
            · injection hok with h
              subst h
              rfl
            · split at hok
              · injection hok with h
                subst h
                rfl
              · injection hok with h
                subst h
                rfl
  · intro he hpl hq
    have he' : lowerStr (splitext_ext (pyBasename image_path)) = ".heic" := he
    obtain ⟨v, hv⟩ := Option.isSome_iff_exists.mp hq
    have hchain : process_heic quality_level env.heic
        (pyJoin output_dir (pyBasename image_path)) =
        (.ok (pyJoin output_dir (pyBasename image_path), 1), [1]) := by
      simp [process_heic, heicStep1, hpl, hv]
    have hcalc : compress_image image_path output_dir quality_level dims env =
        .ok { path := pyJoin output_dir (pyBasename image_path),
              format := .heicJpegSave ((List.lookup quality_level heic_quality_map).getD 0),
              dims := some (heicResizeDims dims.1 dims.2) } := by
      simp only [compress_image]
      rw [if_pos he', hchain]
      rfl
    rw [hcalc] at hok
    injection hok with h
    subst h
    rfl

/-- C10 witness: a HEIC file keeps its name and is saved as JPEG content
by the native path. -/
theorem C10_output_keeps_input_name_witness :
    ({ path := "out/pic.heic", format := .heicJpegSave 60,
       dims := some (4096, 2048) } : ImageWrite).path =
        pyJoin "out" (pyBasename "pic.heic") ∧
    (lowerExt "pic.heic" = ".heic" → imgEnvOk.heic.pillow = .ok () →
      (List.lookup "Среднее" heic_quality_map).isSome = true →
      ({ path := "out/pic.heic", format := .heicJpegSave 60,
         dims := some (4096, 2048) } : ImageWrite).format =
          .heicJpegSave ((List.lookup "Среднее" heic_quality_map).getD 0)) :=
  C10_output_keeps_input_name "pic.heic" "out" "Среднее" (8192, 4096) imgEnvOk _ rfl

/-- C4 counterexample: for an unsupported input with a missing output
directory, compress_file creates the output directory (makedirs) before
raising the unsupported-format error — the rejection does not precede all
I/O. -/
theorem C4_makedirs_precedes_rejection_counterexample :
    compress_file true false "doc.txt" "out" "Высокое" (1, 1) imgEnvOk videoEnvOk =
      (.error (unsupported_error "doc.txt"), [.existsCheck, .makedirs]) ∧
    FsAct.makedirs ∈ [FsAct.existsCheck, FsAct.makedirs] :=
  ⟨rfl, by decide⟩

set_option maxRecDepth 8000 in
/-- C4 amended: an existing file whose lower-cased extension is outside
both supported sets is always rejected with the unsupported-format error,
whose text names every supported extension of both lists — but only after
the source-existence check and, when the output directory is absent,
after creating it. -/
theorem C4_unsupported_rejected_after_dir_creation (ode : Bool)
    (file_path output_dir quality_level : String) (dims : Nat × Nat)
    (ienv : ImgEnv) (venv : VideoEnv)
    (h1 : lowerExt file_path ∉ image_extensions)
    (h2 : lowerExt file_path ∉ video_extensions) :
    compress_file true ode file_path output_dir quality_level dims ienv venv =
      (.error (unsupported_error file_path),
       if ode then [.existsCheck] else [.existsCheck, .makedirs]) ∧
    ∀ e ∈ image_extensions ++ video_extensions,
      containsSubstr (unsupported_error file_path) e = true := by
  constructor
  · simp only [compress_file]
    rw [if_neg (show ¬((true : Bool) = false) by decide), if_neg h1, if_neg h2]
  · intro e he
    simp only [containsSubstr, decide_eq_true_eq]
    have hsuffix : e.toList <:+:
        (". Поддерживаемые форматы: изображения " ++ joinComma image_extensions ++
          ", видео " ++ joinComma video_extensions).toList := by
      fin_cases he <;> decide
    have hrw : (unsupported_error file_path).toList =
        "Неподдерживаемый тип файла: ".toList ++ (file_path.toList ++
          (". Поддерживаемые форматы: изображения " ++ joinComma image_extensions ++
            ", видео " ++ joinComma video_extensions).toList) := by
      simp [unsupported_error, String.toList, String.data_append]
    rw [hrw]
    exact (hsuffix.trans (List.suffix_append file_path.toList _).isInfix).trans
      (List.suffix_append _ _).isInfix

/-- C4 witness: instantiating the amended theorem at a .txt file. -/
theorem C4_unsupported_rejected_witness :
    (compress_file true false "doc.txt" "out2" "Высокое" (1, 1) imgEnvOk videoEnvOk =
      (.error (unsupported_error "doc.txt"),
       if false then [.existsCheck] else [.existsCheck, .makedirs])) ∧
    (∀ e ∈ image_extensions ++ video_extensions,
      containsSubstr (unsupported_error "doc.txt") e = true) := by
  have h := C4_unsupported_rejected_after_dir_creation false "doc.txt" "out2"
    "Высокое" (1, 1) imgEnvOk videoEnvOk (by decide) (by decide)
  exact h

/-- The environment in which both encoder invocations fail. -/
def videoEnvRetryFail : VideoEnv :=
  { ffmpegAvailable := true, primary := .error "primary failed",
    fallback := .error "retry failed", fallbackStderr := "boom stderr" }

/-- C7 counterexample: when both invocations fail, the raised error is the
fixed incompatibility message, which does not carry the retry's stderr
diagnostic; and the retry's fixed 192k audio bitrate is lower than the
High tier's 256k, not higher. -/
theorem C7_retry_params_counterexample :
    (compress_video "clip.mov" "out" "Высокое" videoEnvRetryFail).1 =
      .error video_fallback_error ∧
    containsSubstr video_fallback_error "boom stderr" = false ∧
    (compress_video "clip.mov" "out" "Высокое" videoEnvRetryFail).2 =
      [primaryVideoCmd "ffmpeg" "clip.mov" "out/clip.mp4" (vset "Высокое"),
       ["ffmpeg", "-i", "clip.mov", "-c:v", "libx264", "-crf", "20",
        "-preset", "medium", "-c:a", "aac", "-b:a", "192k", "-y", "out/clip.mp4"]] ∧
    "-vf" ∉ ["ffmpeg", "-i", "clip.mov", "-c:v", "libx264", "-crf", "20",
        "-preset", "medium", "-c:a", "aac", "-b:a", "192k", "-y", "out/clip.mp4"] ∧
    kbps "192k" < kbps (vset "Высокое").audio_bitrate :=
  ⟨rfl, by decide, rfl, by decide, by decide⟩

/-- C7 amended: at most two encoder invocations ever happen; when the
primary fails, exactly one retry runs with the fixed conservative command
(crf 20, preset medium, 192k audio, no scale filter, independent of the
tier); when the retry also fails the call raises the fixed incompatibility
message (the retry's stderr is only logged, not attached). -/
theorem C7_retry_once_with_fixed_conservative_params
    (video_path output_dir q : String) (env : VideoEnv)
    (hav : env.ffmpegAvailable = true)
    (hq : (List.lookup q video_quality_map).isSome = true) :
    let out := pyJoin output_dir (splitext_base (pyBasename video_path) ++ ".mp4")
    (compress_video video_path output_dir q env).2.length ≤ 2 ∧
    (env.primary = .ok () →
      compress_video video_path output_dir q env =
        (.ok out, [primaryVideoCmd "ffmpeg" video_path out
          ((List.lookup q video_quality_map).getD dummySettings)])) ∧
    (∀ e, env.primary = .error e →
      (compress_video video_path output_dir q env).2 =
        [primaryVideoCmd "ffmpeg" video_path out
           ((List.lookup q video_quality_map).getD dummySettings),
         fallbackVideoCmd "ffmpeg" video_path out] ∧
      (env.fallback = .ok () →
        (compress_video video_path output_dir q env).1 = .ok out) ∧
      (∀ e2, env.fallback = .error e2 →
        (compress_video video_path output_dir q env).1 =
          .error video_fallback_error)) := by
  obtain ⟨v, hv⟩ := Option.isSome_iff_exists.mp hq
  obtain ⟨fav, pr, fb, fbs⟩ := env
  simp only at hav
  subst hav
  cases pr <;> cases fb <;> simp [compress_video, hv]

/-- C7 witness: instantiating the amended theorem where both runs fail. -/
theorem C7_retry_once_witness :
    let out := pyJoin "out" (splitext_base (pyBasename "clip.mov") ++ ".mp4")
    (compress_video "clip.mov" "out" "Высокое" videoEnvRetryFail).2.length ≤ 2 ∧
    (videoEnvRetryFail.primary = .ok () →
      compress_video "clip.mov" "out" "Высокое" videoEnvRetryFail =
        (.ok out, [primaryVideoCmd "ffmpeg" "clip.mov" out
          ((List.lookup "Высокое" video_quality_map).getD dummySettings)])) ∧
    (∀ e, videoEnvRetryFail.primary = .error e →
      (compress_video "clip.mov" "out" "Высокое" videoEnvRetryFail).2 =
        [primaryVideoCmd "ffmpeg" "clip.mov" out
           ((List.lookup "Высокое" video_quality_map).getD dummySettings),
         fallbackVideoCmd "ffmpeg" "clip.mov" out] ∧
      (videoEnvRetryFail.fallback = .ok () →
        (compress_video "clip.mov" "out" "Высокое" videoEnvRetryFail).1 = .ok out) ∧
      (∀ e2, videoEnvRetryFail.fallback = .error e2 →
        (compress_video "clip.mov" "out" "Высокое" videoEnvRetryFail).1 =
          .error video_fallback_error)) :=
  C7_retry_once_with_fixed_conservative_params "clip.mov" "out" "Высокое"
    videoEnvRetryFail rfl (by decide)

/-- An environment in which the native decode fails and none of the three
tool-based mechanisms is available. -/
def heicEnvAllUnavailable : HeicEnv :=
  { pillow := .error "PIL decode failed", isDarwin := false, sips := .error "",
    hasConvert := false, convert := .error "", hasFfmpeg := false,
    ffmpeg := .error "" }

/-- C3 counterexample: when every mechanism fails but the FFmpeg step was
unavailable (rather than run-and-failed), the raised overall failure is
the fixed generic message, which does not carry the last underlying error
(the PIL decode exception text). -/
theorem C3_generic_error_counterexample :
    (process_heic "Высокое" heicEnvAllUnavailable "out/x.heic").1 =
      .error heic_generic_error ∧
    step1Succeeds "Высокое" heicEnvAllUnavailable = false ∧
    step2Succeeds heicEnvAllUnavailable = false ∧
    step3Succeeds "Высокое" heicEnvAllUnavailable = false ∧
    step4Succeeds "Высокое" heicEnvAllUnavailable = false ∧
    containsSubstr heic_generic_error "PIL decode failed" = false ∧
    heic_generic_error ≠ "PIL decode failed" :=
  ⟨rfl, by decide, by decide, by decide, by decide, by decide, by decide⟩

/-- C3 amended: the chain tries the four mechanisms in the fixed order,
returns at the first success without entering later mechanisms, treats
intermediate failures as non-fatal, and fails exactly when every
mechanism fails; the raised failure carries the last underlying error
when the FFmpeg step actually ran and failed, and is the generic message
when FFmpeg was unavailable. -/
theorem C3_chain_first_success_and_error_policy (q : String) (env : HeicEnv)
    (out : String) :
    (step1Succeeds q env = true →
      process_heic q env out = (.ok (out, 1), [1])) ∧
    (step1Succeeds q env = false → step2Succeeds env = true →
      process_heic q env out = (.ok (out, 2), [1, 2])) ∧
    (step1Succeeds q env = false → step2Succeeds env = false →
      step3Succeeds q env = true →
      (process_heic q env out).1 = .ok (out, 3) ∧ 4 ∉ (process_heic q env out).2) ∧
    (step1Succeeds q env = false → step2Succeeds env = false →
      step3Succeeds q env = false → step4Succeeds q env = true →
      (process_heic q env out).1 = .ok (out, 4)) ∧
    ((∃ e, (process_heic q env out).1 = .error e) ↔
      (step1Succeeds q env || step2Succeeds env || step3Succeeds q env ||
        step4Succeeds q env) = false) ∧
    (step1Succeeds q env = false → step2Succeeds env = false →
      step3Succeeds q env = false → env.hasFfmpeg = true →
      (List.lookup q heic_quality_map).isSome = true →
      ∀ e, env.ffmpeg = .error e → (process_heic q env out).1 = .error e) ∧
    (step1Succeeds q env = false → step2Succeeds env = false →
      step3Succeeds q env = false → env.hasFfmpeg = false →
      (process_heic q env out).1 = .error heic_generic_error) := by
  refine ⟨?_, ?_, ?_, ?_, ⟨?_, ?_⟩, ?_, ?_⟩
  · intro h1
    exact process_heic_ok_of_step1 q env out h1
  · intro h1 h2
    exact process_heic_ok_of_step2 q env out h1 h2
  · intro h1 h2 h3
    exact process_heic_ok_of_step3 q env out h1 h2 h3
  · intro h1 h2 h3 h4
    exact process_heic_ok_of_step4 q env out h1 h2 h3 h4
  · rintro ⟨e, he⟩
    by_cases h1 : step1Succeeds q env = true
    · rw [process_heic_ok_of_step1 q env out h1] at he
      exact absurd he (by simp)
    · rw [Bool.not_eq_true] at h1
      by_cases h2 : step2Succeeds env = true
      · rw [process_heic_ok_of_step2 q env out h1 h2] at he
        exact absurd he (by simp)
      · rw [Bool.not_eq_true] at h2
        by_cases h3 : step3Succeeds q env = true
        · rw [(process_heic_ok_of_step3 q env out h1 h2 h3).1] at he
          exact absurd he (by simp)
        · rw [Bool.not_eq_true] at h3
          by_cases h4 : step4Succeeds q env = true
          · rw [process_heic_ok_of_step4 q env out h1 h2 h3 h4] at he
            exact absurd he (by simp)
          · rw [Bool.not_eq_true] at h4
            simp [h1, h2, h3, h4]
  · intro hall
    simp only [Bool.or_eq_false_iff] at hall
    obtain ⟨⟨⟨h1, h2⟩, h3⟩, h4⟩ := hall
    exact ⟨heicFinalErr q env, process_heic_err_all q env out h1 h2 h3 h4⟩
  · intro h1 h2 h3 hhf hvs e hffe
    obtain ⟨v, hv⟩ := Option.isSome_iff_exists.mp hvs
    have h4 : step4Succeeds q env = false := by
      simp [step4Succeeds, hhf, hv, hffe, exceptOk]
    rw [process_heic_err_all q env out h1 h2 h3 h4]
    simp [heicFinalErr, hhf, hv, hffe]
  · intro h1 h2 h3 hhf
    have h4 : step4Succeeds q env = false := by simp [step4Succeeds, hhf]
    rw [process_heic_err_all q env out h1 h2 h3 h4]
    simp [heicFinalErr, hhf]

/-- Whether an outcome is a success. -/
def isSuccess : Outcome → Bool
  | .success _ _ => true
  | .failure _ _ => false

theorem runLoop_none_spec (total : Nat) :
    ∀ (ts : List (String × Outcome)) (i : Nat) (st : BatchState),
    (runLoop total none ts i st).processed = st.processed + ts.length ∧
    (runLoop total none ts i st).stats = st.stats ++ successStats ts ∧
    (runLoop total none ts i st).failed = st.failed ++ failureList ts := by
  intro ts
  induction ts with
  | nil =>
    intro i st
    simp [runLoop, successStats, failureList]
  | cons t ts ih =>
    intro i st
    obtain ⟨rel, oc⟩ := t
    have hrun : runLoop total none ((rel, oc) :: ts) i st =
        runLoop total none ts (i + 1) (batchStep total (rel, oc) st) := by
      simp [runLoop, stopCheck]
    rw [hrun]
    obtain ⟨hp, hs, hf⟩ := ih (i + 1) (batchStep total (rel, oc) st)
    cases oc with
    | success o c =>
      refine ⟨?_, ?_, ?_⟩
      · rw [hp]
        simp [batchStep]
        omega
      · rw [hs]
        simp [batchStep, successStats]
      · rw [hf]
        simp [batchStep, failureList]
    | failure o e =>
      refine ⟨?_, ?_, ?_⟩
      · rw [hp]
        simp [batchStep]
        omega
      · rw [hs]
        simp [batchStep, successStats]
      · rw [hf]
        simp [batchStep, failureList]

theorem runLoop_stop_eq_take (total k : Nat) :
    ∀ (ts : List (String × Outcome)) (i : Nat) (st : BatchState), i ≤ k →
    runLoop total (some k) ts i st = runLoop total none (ts.take (k - i)) i st := by
  intro ts
  induction ts with
  | nil =>
    intro i st hik
    simp [runLoop]
  | cons t ts ih =>
    intro i st hik
    by_cases hki : k ≤ i
    · have hik' : i = k := le_antisymm hik hki
      subst hik'
      have hstop : stopCheck (some i) i = true := by simp [stopCheck]
      simp [runLoop, hstop, Nat.sub_self]
    · push_neg at hki
      have hcheck : stopCheck (some k) i = false := by
        simp [stopCheck]
        omega
      have hlhs : runLoop total (some k) (t :: ts) i st =
          runLoop total (some k) ts (i + 1) (batchStep total t st) := by
        simp [runLoop, hcheck]
      rw [hlhs, ih (i + 1) (batchStep total t st) (by omega)]
      have hki2 : k - i = (k - (i + 1)) + 1 := by omega
      rw [hki2, List.take_succ_cons]
      have hrhs : runLoop total none (t :: ts.take (k - (i + 1))) i st =
          runLoop total none (ts.take (k - (i + 1))) (i + 1) (batchStep total t st) := by
        simp [runLoop, stopCheck]
      rw [hrhs]

theorem successStats_cons_success (rel : String) (o c : Nat)
    (ts : List (String × Outcome)) :
    successStats ((rel, Outcome.success o c) :: ts) =
      ⟨rel, o, c⟩ :: successStats ts := by
  simp [successStats, List.filterMap_cons]

theorem successStats_cons_failure (rel : String) (o : Nat) (e : String)
    (ts : List (String × Outcome)) :
    successStats ((rel, Outcome.failure o e) :: ts) = successStats ts := by
  simp [successStats, List.filterMap_cons]

theorem failureList_cons_success (rel : String) (o c : Nat)
    (ts : List (String × Outcome)) :
    failureList ((rel, Outcome.success o c) :: ts) = failureList ts := by
  simp [failureList, List.filterMap_cons]

theorem failureList_cons_failure (rel : String) (o : Nat) (e : String)
    (ts : List (String × Outcome)) :
    failureList ((rel, Outcome.failure o e) :: ts) =
      (rel, e) :: failureList ts := by
  simp [failureList, List.filterMap_cons]

theorem successStats_all (ts : List (String × Outcome))
    (h : ∀ t ∈ ts, isSuccess t.2 = true) :
    (successStats ts).length = ts.length ∧ failureList ts = [] := by
  induction ts with
  | nil => simp [successStats, failureList]
  | cons t ts ih =>
    obtain ⟨rel, oc⟩ := t
    have hhead := h (rel, oc) (by simp)
    have htail : ∀ t ∈ ts, isSuccess t.2 = true :=
      fun t ht => h t (List.mem_cons_of_mem _ ht)
    obtain ⟨ih1, ih2⟩ := ih htail
    cases oc with
    | success o c =>
      refine ⟨?_, ?_⟩
      · rw [successStats_cons_success]
        simp [ih1]
      · rw [failureList_cons_success]
        exact ih2
    | failure o e =>
      simp [isSuccess] at hhead

theorem successStats_append (a b : List (String × Outcome)) :
    successStats (a ++ b) = successStats a ++ successStats b :=
  List.filterMap_append a b _

theorem failureList_append (a b : List (String × Outcome)) :
    failureList (a ++ b) = failureList a ++ failureList b :=
  List.filterMap_append a b _

theorem runBatch_none_spec (tasks : List (String × Outcome)) :
    (runBatch tasks none).processedFiles = tasks.length ∧
    (runBatch tasks none).fileStats = successStats tasks ∧
    (runBatch tasks none).failedFiles = failureList tasks ∧
    (runBatch tasks none).events.getLast? =
      some (⟨"", tasks.length, tasks.length, 100⟩ : Event) ∧
    (runBatch tasks none).consolidatedError =
      (if (failureList tasks).isEmpty then none
       else some (consolidatedMsg (failureList tasks))) ∧
    (runBatch tasks none).finished = true := by
  obtain ⟨hp, hs, hf⟩ :=
    runLoop_none_spec tasks.length tasks 0 (batchInit tasks.length)
  have hp' : (runLoop tasks.length none tasks 0 (batchInit tasks.length)).processed =
      tasks.length := by
    rw [hp]
    simp [batchInit]
  have hs' : (runLoop tasks.length none tasks 0 (batchInit tasks.length)).stats =
      successStats tasks := by
    rw [hs]
    simp [batchInit]
  have hf' : (runLoop tasks.length none tasks 0 (batchInit tasks.length)).failed =
      failureList tasks := by
    rw [hf]
    simp [batchInit]
  refine ⟨hp', hs', hf', ?_, ?_, rfl⟩
  · show ((runLoop tasks.length none tasks 0 (batchInit tasks.length)).events ++
      ([⟨"", tasks.length,
        (runLoop tasks.length none tasks 0 (batchInit tasks.length)).processed, 100⟩] :
        List Event)).getLast? =
      some (⟨"", tasks.length, tasks.length, 100⟩ : Event)
    rw [List.getLast?_concat, hp']
  · show (if (runLoop tasks.length none tasks 0 (batchInit tasks.length)).failed.isEmpty
        then none
        else some (consolidatedMsg
          (runLoop tasks.length none tasks 0 (batchInit tasks.length)).failed)) =
      (if (failureList tasks).isEmpty then none
       else some (consolidatedMsg (failureList tasks)))
    rw [hf']

theorem runBatch_stop_spec (tasks : List (String × Outcome)) (k : Nat)
    (hk : k ≤ tasks.length) :
    (runBatch tasks (some k)).processedFiles = k ∧
    (runBatch tasks (some k)).fileStats = successStats (tasks.take k) ∧
    (runBatch tasks (some k)).failedFiles = failureList (tasks.take k) ∧
    (runBatch tasks (some k)).events.getLast? =
      some (⟨"", tasks.length, k, 100⟩ : Event) ∧
    (runBatch tasks (some k)).finished = true := by
  have hstop := runLoop_stop_eq_take tasks.length k tasks 0 (batchInit tasks.length)
    (Nat.zero_le k)
  rw [Nat.sub_zero] at hstop
  obtain ⟨hp, hs, hf⟩ :=
    runLoop_none_spec tasks.length (tasks.take k) 0 (batchInit tasks.length)
  have hlen : (tasks.take k).length = k := by
    rw [List.length_take]
    exact Nat.min_eq_left hk
  have hp' : (runLoop tasks.length (some k) tasks 0 (batchInit tasks.length)).processed =
      k := by
    rw [hstop, hp]
    simp [batchInit, hlen]
  have hs' : (runLoop tasks.length (some k) tasks 0 (batchInit tasks.length)).stats =
      successStats (tasks.take k) := by
    rw [hstop, hs]
    simp [batchInit]
  have hf' : (runLoop tasks.length (some k) tasks 0 (batchInit tasks.length)).failed =
      failureList (tasks.take k) := by
    rw [hstop, hf]
    simp [batchInit]
  refine ⟨hp', hs', hf', ?_, rfl⟩
  show ((runLoop tasks.length (some k) tasks 0 (batchInit tasks.length)).events ++
    ([⟨"", tasks.length,
      (runLoop tasks.length (some k) tasks 0 (batchInit tasks.length)).processed, 100⟩] :
      List Event)).getLast? =
    some (⟨"", tasks.length, k, 100⟩ : Event)
  rw [List.getLast?_concat, hp']

/-- C5: in a batch where exactly one interior file fails and all others
succeed, the loop continues past the failure: the processed count reaches
N, exactly N-1 per-file stats are recorded, the failing file is the sole
entry of the failed list, the consolidated end-of-batch failure report is
emitted for it, the terminal progress event reports percent = 100, and
the finished signal fires. -/
theorem C5_single_failure_batch_continues
    (pre post tasks : List (String × Outcome)) (name err : String) (orig : Nat)
    (htasks : tasks = pre ++ (name, Outcome.failure orig err) :: post)
    (hpre : ∀ t ∈ pre, isSuccess t.2 = true)
    (hpost : ∀ t ∈ post, isSuccess t.2 = true)
    (hk1 : 0 < pre.length) (hk2 : 0 < post.length) :
    (runBatch tasks none).processedFiles = tasks.length ∧
    (runBatch tasks none).fileStats.length = tasks.length - 1 ∧
    (runBatch tasks none).failedFiles = [(name, err)] ∧
    (runBatch tasks none).consolidatedError = some (consolidatedMsg [(name, err)]) ∧
    (runBatch tasks none).events.getLast? =
      some (⟨"", tasks.length, tasks.length, 100⟩ : Event) ∧
    (runBatch tasks none).finished = true := by
  subst htasks
  obtain ⟨hp, hs, hf, hev, hce, hfin⟩ :=
    runBatch_none_spec (pre ++ (name, Outcome.failure orig err) :: post)
  obtain ⟨hpre1, hpre2⟩ := successStats_all pre hpre
  obtain ⟨hpost1, hpost2⟩ := successStats_all post hpost
  have hfail : failureList (pre ++ (name, Outcome.failure orig err) :: post) =
      [(name, err)] := by
    rw [failureList_append, hpre2, failureList_cons_failure, hpost2]
    rfl
  have hstats :
      (successStats (pre ++ (name, Outcome.failure orig err) :: post)).length =
        (pre ++ (name, Outcome.failure orig err) :: post).length - 1 := by
    rw [successStats_append, successStats_cons_failure]
    simp [hpre1, hpost1]
  refine ⟨hp, ?_, ?_, ?_, hev, hfin⟩
  · rw [hs]
    exact hstats
  · rw [hf]
    exact hfail
  · rw [hce, hfail]
    rfl

/-- C5 witness: a three-file batch whose middle file fails. -/
theorem C5_single_failure_witness :
    (runBatch [("a.jpg", Outcome.success 10 5), ("b.heic", Outcome.failure 8 "boom"),
               ("c.png", Outcome.success 6 3)] none).processedFiles =
      ([("a.jpg", Outcome.success 10 5), ("b.heic", Outcome.failure 8 "boom"),
        ("c.png", Outcome.success 6 3)] : List (String × Outcome)).length ∧
    (runBatch [("a.jpg", Outcome.success 10 5), ("b.heic", Outcome.failure 8 "boom"),
               ("c.png", Outcome.success 6 3)] none).fileStats.length =
      ([("a.jpg", Outcome.success 10 5), ("b.heic", Outcome.failure 8 "boom"),
        ("c.png", Outcome.success 6 3)] : List (String × Outcome)).length - 1 ∧
    (runBatch [("a.jpg", Outcome.success 10 5), ("b.heic", Outcome.failure 8 "boom"),
               ("c.png", Outcome.success 6 3)] none).failedFiles =
      [("b.heic", "boom")] ∧
    (runBatch [("a.jpg", Outcome.success 10 5), ("b.heic", Outcome.failure 8 "boom"),
               ("c.png", Outcome.success 6 3)] none).consolidatedError =
      some (consolidatedMsg [("b.heic", "boom")]) ∧
    (runBatch [("a.jpg", Outcome.success 10 5), ("b.heic", Outcome.failure 8 "boom"),
               ("c.png", Outcome.success 6 3)] none).events.getLast? =
      some (⟨"",
        ([("a.jpg", Outcome.success 10 5), ("b.heic", Outcome.failure 8 "boom"),
          ("c.png", Outcome.success 6 3)] : List (String × Outcome)).length,
        ([("a.jpg", Outcome.success 10 5), ("b.heic", Outcome.failure 8 "boom"),
          ("c.png", Outcome.success 6 3)] : List (String × Outcome)).length, 100⟩ : Event) ∧
    (runBatch [("a.jpg", Outcome.success 10 5), ("b.heic", Outcome.failure 8 "boom"),
               ("c.png", Outcome.success 6 3)] none).finished = true :=
  C5_single_failure_batch_continues
    [("a.jpg", Outcome.success 10 5)] [("c.png", Outcome.success 6 3)]
    [("a.jpg", Outcome.success 10 5), ("b.heic", Outcome.failure 8 "boom"),
     ("c.png", Outcome.success 6 3)]
    "b.heic" "boom" 8 rfl (by decide) (by decide) (by decide) (by decide)

/-- C6: cancellation is cooperative and boundary-checked — when the stop
flag is observed after k tasks have been dispatched (0 < k) and before
the next dispatch (k < N), exactly the first k tasks are processed (the
in-flight task completes and its outcome is recorded), no later task is
dispatched, and the terminal percent-100 event and the finished signal
are still emitted. -/
theorem C6_cooperative_cancellation (tasks : List (String × Outcome)) (k : Nat)
    (hk0 : 0 < k) (hkN : k < tasks.length) :
    (runBatch tasks (some k)).processedFiles = k ∧
    (runBatch tasks (some k)).fileStats = successStats (tasks.take k) ∧
    (runBatch tasks (some k)).failedFiles = failureList (tasks.take k) ∧
    (runBatch tasks (some k)).events.getLast? =
      some (⟨"", tasks.length, k, 100⟩ : Event) ∧
    (runBatch tasks (some k)).finished = true :=
  runBatch_stop_spec tasks k (le_of_lt hkN)

/-- C6 witness: a three-file batch cancelled after the first dispatch. -/
theorem C6_cooperative_cancellation_witness :
    (runBatch [("a.jpg", Outcome.success 10 5), ("b.heic", Outcome.failure 8 "boom"),
               ("c.png", Outcome.success 6 3)] (some 1)).processedFiles = 1 ∧
    (runBatch [("a.jpg", Outcome.success 10 5), ("b.heic", Outcome.failure 8 "boom"),
               ("c.png", Outcome.success 6 3)] (some 1)).fileStats =
      successStats (([("a.jpg", Outcome.success 10 5),
        ("b.heic", Outcome.failure 8 "boom"),
        ("c.png", Outcome.success 6 3)] : List (String × Outcome)).take 1) ∧
    (runBatch [("a.jpg", Outcome.success 10 5), ("b.heic", Outcome.failure 8 "boom"),
               ("c.png", Outcome.success 6 3)] (some 1)).failedFiles =
      failureList (([("a.jpg", Outcome.success 10 5),
        ("b.heic", Outcome.failure 8 "boom"),
        ("c.png", Outcome.success 6 3)] : List (String × Outcome)).take 1) ∧
    (runBatch [("a.jpg", Outcome.success 10 5), ("b.heic", Outcome.failure 8 "boom"),
               ("c.png", Outcome.success 6 3)] (some 1)).events.getLast? =
      some (⟨"",
        ([("a.jpg", Outcome.success 10 5), ("b.heic", Outcome.failure 8 "boom"),
          ("c.png", Outcome.success 6 3)] : List (String × Outcome)).length,
        1, 100⟩ : Event) ∧
    (runBatch [("a.jpg", Outcome.success 10 5), ("b.heic", Outcome.failure 8 "boom"),
               ("c.png", Outcome.success 6 3)] (some 1)).finished = true :=
  C6_cooperative_cancellation
    [("a.jpg", Outcome.success 10 5), ("b.heic", Outcome.failure 8 "boom"),
     ("c.png", Outcome.success 6 3)] 1 (by decide) (by decide)
